import Mathlib

/-!
Verification development for the Prompt Paladin repository.

The repository implements a prompt-quality gate: a Cursor
`beforeSubmitPrompt` hook (src/hooks/before_submit_prompt.py) that sends
the user prompt to a judge (`pp_guard` in src/mcp_server/tools.py),
dispatches on the verdict, optionally invokes a healer (`pp_heal`), and
always emits exactly one hook response.

We embed the control logic shallowly:

* Python strings are Lean `String`s; the Python string operations used by
  the code (`str.strip`, `str.split('\n')`, `str.lower`, `in` substring
  test, `str.startswith`) are reimplemented below over `List Char` so
  that everything computes by `decide`.
* LLM calls are oracles: an `LLMOutcome` is either the raw response text
  or a raised exception message.  `json.loads` (Python stdlib, external
  to the repository) is an oracle `String → Except String _` whose `.ok`
  branch yields the record of fields the code reads from the parsed dict.
* Dict values with `.get`/`.setdefault` access become records of
  `Option` fields, with `Option.getD` modelling the Python defaults.
-/

deriving instance DecidableEq for Except

/-! ## Python string primitives -/

/-- Whitespace characters recognised by Python `str.strip()` (ASCII part,
which covers every string the embedded code manipulates). -/
def pyIsSpace (c : Char) : Bool :=
  c == ' ' || c == '\t' || c == '\n' || c == '\r' || c == '\x0b' || c == '\x0c'

/-- `str.strip()` on the character list: drop whitespace from both ends. -/
def pyStripList (l : List Char) : List Char :=
  ((l.dropWhile pyIsSpace).reverse.dropWhile pyIsSpace).reverse

/-- Python `str.strip()`. -/
def pyStrip (s : String) : String :=
  ⟨pyStripList s.data⟩

/-- Python `str.split('\n')`: always returns at least one piece, keeps
empty pieces. -/
def splitNL : List Char → List (List Char)
  | [] => [[]]
  | c :: rest =>
    if c == '\n' then [] :: splitNL rest
    else
      match splitNL rest with
      | [] => [[c]]
      | piece :: more => (c :: piece) :: more

/-- Python `'\n'.join(...)` on character lists. -/
def joinNL (lines : List (List Char)) : List Char :=
  List.intercalate ['\n'] lines

/-- Python substring test `needle in hay`. -/
def pyContains : List Char → List Char → Bool
  | hay, needle =>
    needle.isPrefixOf hay ||
      match hay with
      | [] => false
      | _ :: t => pyContains t needle

/-- Python `str.lower()` (ASCII part). -/
def pyLower (s : String) : String :=
  ⟨s.data.map Char.toLower⟩

/-! ## `extract_json_from_response` (src/mcp_server/tools.py lines 40-66)

Strips a surrounding markdown code fence, if present, from an LLM
response before JSON parsing. -/

/-- Embeds `extract_json_from_response`: strip; if the text starts with
three backticks, drop the first line, drop the last line when it is a
bare closing fence, rejoin and strip again. -/
def extract_json_from_response (content : String) : String :=
  let content := pyStripList content.data
  if ("```".data).isPrefixOf content then
    let lines := (splitNL content).drop 1
    let lines :=
      match lines.getLast? with
      | some last => if pyStripList last == "```".data then lines.dropLast else lines
      | none => lines
    ⟨pyStripList (joinNL lines)⟩
  else ⟨content⟩

/-! ## Data model -/

/-- The outcome of one call to a hosted model: either the raw response
content, or an exception message (network error, timeout, vendor error,
config failure — all surface as a Python exception). -/
inductive LLMOutcome where
  | ok (content : String)
  | fail (err : String)
deriving DecidableEq, Repr

/-- The fields of a guard dict that the code reads or writes
(`verdict`, `reason`, `confidence`, `issues`, `suggestions`, `error`).
`none` models an absent key; `Option.getD` models Python `.get(k, d)`
and `.setdefault`.  Confidence is a rational (the code only ever writes
the literals 0.0 and 0.5). -/
structure GuardDict where
  verdict : Option String
  reason : Option String
  confidence : Option ℚ
  issues : Option (List String)
  suggestions : Option String
  error : Option String
deriving DecidableEq, Repr

/-- The fields of a heal dict that the code reads or writes. -/
structure HealDict where
  healed_prompt : Option String
  changes_made : Option (List String)
  error : Option String
deriving DecidableEq, Repr

/-- The hook response written to stdout.  `cont` is the JSON key
`"continue"` (a Lean keyword); `none` models an absent key. -/
structure HookResponse where
  cont : Bool
  prompt : Option String
  userMessage : Option String
deriving DecidableEq, Repr

/-- The hook configuration (src/hooks/before_submit_prompt.py
`load_hook_config`). -/
structure HookConfig where
  auto_cast_heal : Bool
  anger_translator : Bool
  timeout_secs : ℚ
deriving DecidableEq, Repr

/-- The MCP server configuration fields used by `pp_heal`
(src/mcp_server/config.py `Config`; only `anger_translator` matters to
the control flow verified here). -/
structure McpConfig where
  auto_cast_heal : Bool
  anger_translator : Bool
deriving DecidableEq, Repr

/-- Identifies which instruction template `pp_heal` dispatched to the
model; the constructors name the constants of src/mcp_server/prompts.py
whose text is opaque data to the control logic. -/
inductive HealSystem where
  | PP_HEAL_ANGER_SYSTEM
  | PP_HEAL_CLARITY_SYSTEM
deriving DecidableEq, Repr

/-- One external tool call made by the hook, for call-count reasoning. -/
inductive ExtCall where
  | guard (prompt : String)
  | heal (prompt : String) (mode : String)
deriving DecidableEq, Repr

/-! ## `pp_guard` (src/mcp_server/tools.py lines 73-141) -/

/-- The dict returned by `pp_guard`'s `except` clause: fail open with
`verdict="proceed"`, `confidence=0.0`, diagnostic reason, and the
`issues`/`error` keys it sets. -/
def pp_guard_error (e : String) : GuardDict :=
  { verdict := some "proceed"
    reason := some ("Error during evaluation: " ++ e)
    confidence := some 0
    issues := some ["evaluation_error"]
    suggestions := none
    error := some e }

/-- Embeds `pp_guard`.  `parse` is the `json.loads` oracle; a parse
error is a raised exception and lands in the same `except` clause as an
LLM failure.  On success the four `setdefault` calls fill the missing
fields. -/
def pp_guard (parse : String → Except String GuardDict) (llm : LLMOutcome) :
    GuardDict :=
  match llm with
  | .fail e => pp_guard_error e
  | .ok content =>
    match parse (extract_json_from_response content) with
    | .error e => pp_guard_error e
    | .ok result =>
      { verdict := some (result.verdict.getD "intervene")
        reason := some (result.reason.getD "No reason provided")
        confidence := some (result.confidence.getD (1 / 2))
        issues := some (result.issues.getD [])
        suggestions := result.suggestions
        error := result.error }

/-- Embeds `call_mcp_guard` (src/hooks/before_submit_prompt.py lines
151-201): pass the tool result through; if the call itself raised,
fail open with a `Guard error:` reason. -/
def call_mcp_guard (result : Except String GuardDict) : GuardDict :=
  match result with
  | .ok response => response
  | .error e =>
    { verdict := some "proceed"
      reason := some ("Guard error: " ++ e)
      confidence := some 0
      issues := none
      suggestions := none
      error := none }

/-! ## `pp_heal` (src/mcp_server/tools.py lines 215-319) -/

/-- The fixed negative-word list of `_has_negative_tone`. -/
def negative_words : List String :=
  ["stupid", "dumb", "idiotic", "garbage", "trash", "terrible",
   "horrible", "awful", "broken", "useless", "crap", "sucks",
   "hate", "ridiculous", "insane", "moronic"]

/-- Embeds `_has_negative_tone`: case-insensitive substring match of the
prompt against the fixed word list. -/
def _has_negative_tone (prompt : String) : Bool :=
  let prompt_lower := pyLower prompt
  negative_words.any (fun word => pyContains prompt_lower.data word.data)

/-- Embeds the `system_prompt` selection of `pp_heal` (src/mcp_server/
tools.py lines 241-258): `anger` and `clarity` pick their template;
`auto` picks anger when the config flag is on and the tone heuristic
fires; any other mode defaults to clarity. -/
def pp_heal_system (mode : String) (config : McpConfig) (prompt : String) :
    HealSystem :=
  if mode = "anger" then .PP_HEAL_ANGER_SYSTEM
  else if mode = "clarity" then .PP_HEAL_CLARITY_SYSTEM
  else if mode = "auto" then
    if config.anger_translator && _has_negative_tone prompt then
      .PP_HEAL_ANGER_SYSTEM
    else .PP_HEAL_CLARITY_SYSTEM
  else .PP_HEAL_CLARITY_SYSTEM

/-- The dict returned by `pp_heal`'s `except` clause: the original
prompt, an empty change list, and the error message. -/
def pp_heal_error (prompt e : String) : HealDict :=
  { healed_prompt := some prompt, changes_made := some [], error := some e }

/-- Embeds `pp_heal`.  `complete` is the provider oracle, applied to the
selected instruction template (observing which template was dispatched);
`parse` is the `json.loads` oracle.  The two `setdefault` calls fill
`healed_prompt` (with the original prompt) and `changes_made`. -/
def pp_heal (parse : String → Except String HealDict) (config : McpConfig)
    (prompt : String) (mode : String) (complete : HealSystem → LLMOutcome) :
    HealDict :=
  let system_prompt := pp_heal_system mode config prompt
  match complete system_prompt with
  | .fail e => pp_heal_error prompt e
  | .ok content =>
    match parse (extract_json_from_response content) with
    | .error e => pp_heal_error prompt e
    | .ok result =>
      { healed_prompt := some (result.healed_prompt.getD prompt)
        changes_made := some (result.changes_made.getD [])
        error := result.error }

/-- Embeds `call_mcp_heal` (src/hooks/before_submit_prompt.py lines
204-249): pass the tool result through; if the call raised, return the
original prompt with no changes and the error. -/
def call_mcp_heal (result : Except String HealDict) (prompt : String) :
    HealDict :=
  match result with
  | .ok response => response
  | .error e => pp_heal_error prompt e

/-! ## `process_hook` (src/hooks/before_submit_prompt.py lines 256-392) -/

/-- The hook input event; `prompt := none` models a missing `"prompt"`
key, read as `event.get("prompt", "")`. -/
structure HookEvent where
  prompt : Option String
deriving DecidableEq, Repr

/-- The feedback text prepended on verdict `intervene` (lines 313-321). -/
def intervene_feedback (reason suggestions : String) : String :=
  "[PROMPT QUALITY CHECK]\n🛑 " ++ reason ++ "\n\n💡 Suggestions:\n" ++
    (if suggestions ≠ "" then suggestions
     else "Consider adding more context and specifics.") ++
    "\n\n---\nOriginal prompt:\n"

/-- The feedback text prepended on verdict `heal` when auto-heal is
disabled (lines 367-377). -/
def heal_feedback (reason suggestions : String) : String :=
  "[PROMPT QUALITY CHECK]\n💡 " ++ reason ++ "\n\nSuggestions:\n" ++
    (if suggestions ≠ "" then suggestions
     else "Consider adding more context and specifics.") ++
    "\n\nTip: Enable AUTO_CAST_HEAL in .env for automatic fixes.\n\n---\nOriginal prompt:\n"

/-- Embeds `process_hook`.  `guard` and `heal` are the
`call_mcp_guard`/`call_mcp_heal` oracles (total functions — both call
sites catch every exception).  The second component records the external
tool calls made, in order, for call-count claims. -/
def process_hook (event : HookEvent) (config : HookConfig)
    (guard : String → GuardDict) (heal : String → String → HealDict) :
    HookResponse × List ExtCall :=
  let prompt := pyStrip (event.prompt.getD "")
  if prompt = "" then
    ({ cont := false
       prompt := none
       userMessage := some "⚠️ Empty prompt - please provide instructions" }, [])
  else
    let guard_result := guard prompt
    let verdict := guard_result.verdict.getD "proceed"
    let reason := guard_result.reason.getD "No reason provided"
    if verdict = "proceed" then
      ({ cont := true, prompt := some prompt, userMessage := none },
       [.guard prompt])
    else if verdict = "intervene" then
      let suggestions := guard_result.suggestions.getD ""
      ({ cont := true
         prompt := some (intervene_feedback reason suggestions ++ prompt)
         userMessage := none }, [.guard prompt])
    else if verdict = "heal" then
      if config.auto_cast_heal then
        let heal_result := heal prompt "auto"
        let healed_prompt := heal_result.healed_prompt.getD prompt
        ({ cont := true
           prompt := some healed_prompt
           userMessage := some "🩹 Prompt auto-healed for clarity" },
         [.guard prompt, .heal prompt "auto"])
      else
        let suggestions := guard_result.suggestions.getD ""
        ({ cont := true
           prompt := some (heal_feedback reason suggestions ++ prompt)
           userMessage := none }, [.guard prompt])
    else
      ({ cont := true, prompt := some prompt, userMessage := none },
       [.guard prompt])

/-! ## `main` fail-open envelope (src/hooks/before_submit_prompt.py
lines 399-451) -/

/-- How one run of the pipeline inside `main`'s `try` block ends:
normally with a response, by the SIGALRM hard timeout, or with any
other unhandled exception. -/
inductive PipelineOutcome where
  | completed (response : HookResponse)
  | timeout
  | error (e : String)
deriving DecidableEq, Repr

/-- Embeds the response `main` writes to stdout: the pipeline's own
response, or the minimal permissive `continue=true` object (no prompt
field) on timeout or unhandled error. -/
def main_output (outcome : PipelineOutcome) : HookResponse :=
  match outcome with
  | .completed response => response
  | .timeout => { cont := true, prompt := none, userMessage := none }
  | .error _ => { cont := true, prompt := none, userMessage := none }

/-! ## Shared helpers for the claims -/

/-- A guard oracle returning a fixed well-formed result with the given
verdict, for concrete instantiations. -/
def guardReturning (verdict : String) : String → GuardDict :=
  fun _ =>
    { verdict := some verdict
      reason := some "test reason"
      confidence := some 1
      issues := some []
      suggestions := none
      error := none }

/-- A heal oracle returning a fixed result, for concrete instantiations. -/
def healReturning (d : HealDict) : String → String → HealDict :=
  fun _ _ => d

/-- If a concatenation of strings is empty, so is its right part. -/
theorem append_right_eq_empty {s t : String} (h : s ++ t = "") : t = "" := by
  have hd := congrArg String.data h
  rw [String.data_append] at hd
  rcases List.append_eq_nil.mp hd with ⟨_, h2⟩
  cases t with
  | mk l => cases h2; rfl

/-! ## Claims -/

/-- C1: for every hook event whose prompt text, after trimming
whitespace, is the empty string, `process_hook` returns a response with
`continue=false` and the empty-prompt user message, and makes no judge
or heal call. -/
theorem C1_empty_prompt_blocked (event : HookEvent) (config : HookConfig)
    (guard : String → GuardDict) (heal : String → String → HealDict)
    (h : pyStrip (event.prompt.getD "") = "") :
    process_hook event config guard heal =
      ({ cont := false
         prompt := none
         userMessage := some "⚠️ Empty prompt - please provide instructions" },
       []) := by
  unfold process_hook
  simp [h]

/-- C1 witness: a whitespace-only prompt is blocked with no external
call, whatever the oracles would have answered. -/
theorem C1_empty_prompt_blocked_witness :
    process_hook ⟨some "   "⟩ ⟨true, true, 30⟩ (guardReturning "proceed")
        (healReturning ⟨some "x", some [], none⟩) =
      ({ cont := false
         prompt := none
         userMessage := some "⚠️ Empty prompt - please provide instructions" },
       []) :=
  C1_empty_prompt_blocked _ _ _ _ (by decide)

/-- C2: a judge invocation that raises (in `pp_guard` or around the
`call_mcp_guard` call site) is converted to a proceed verdict with
confidence 0.0 and a diagnostic reason, and the hook then continues:
fail-open. -/
theorem C2_guard_failure_fails_open (event : HookEvent) (config : HookConfig)
    (heal : String → String → HealDict)
    (parse : String → Except String GuardDict) (e : String)
    (h : pyStrip (event.prompt.getD "") ≠ "") :
    pp_guard parse (.fail e) =
      { verdict := some "proceed"
        reason := some ("Error during evaluation: " ++ e)
        confidence := some 0
        issues := some ["evaluation_error"]
        suggestions := none
        error := some e }
    ∧ call_mcp_guard (.error e) =
      { verdict := some "proceed"
        reason := some ("Guard error: " ++ e)
        confidence := some 0
        issues := none
        suggestions := none
        error := none }
    ∧ (process_hook event config (fun _ => pp_guard parse (.fail e)) heal).1.cont
        = true
    ∧ (process_hook event config (fun _ => call_mcp_guard (.error e)) heal).1.cont
        = true := by
  refine ⟨rfl, rfl, ?_, ?_⟩ <;>
    · unfold process_hook
      simp [h, pp_guard, pp_guard_error, call_mcp_guard]

/-- C2 witness: with a non-empty prompt and a judge that raises, the
hook continues. -/
theorem C2_guard_failure_fails_open_witness :
    (process_hook ⟨some "fix the login bug"⟩ ⟨true, true, 30⟩
        (fun _ => pp_guard (fun _ => .error "boom") (.fail "boom"))
        (healReturning ⟨some "x", some [], none⟩)).1.cont = true :=
  (C2_guard_failure_fails_open ⟨some "fix the login bug"⟩ ⟨true, true, 30⟩
      (healReturning ⟨some "x", some [], none⟩) (fun _ => .error "boom")
      "boom" (by decide)).2.2.1

/-- C3 counterexample: the claim says the response prompt equals the
original prompt unmodified, but `process_hook` strips surrounding
whitespace before echoing it: on the event prompt `" hi "` with a
proceed verdict the hook continues with `"hi"`, not `" hi "`. -/
theorem C3_counterexample :
    (process_hook ⟨some " hi "⟩ ⟨true, true, 30⟩ (guardReturning "proceed")
        (healReturning ⟨some "x", some [], none⟩)).1.cont = true
    ∧ (process_hook ⟨some " hi "⟩ ⟨true, true, 30⟩ (guardReturning "proceed")
        (healReturning ⟨some "x", some [], none⟩)).1.prompt = some "hi"
    ∧ (process_hook ⟨some " hi "⟩ ⟨true, true, 30⟩ (guardReturning "proceed")
        (healReturning ⟨some "x", some [], none⟩)).1.prompt ≠ some " hi " := by
  decide

/-- C3 (amended): with a non-empty trimmed prompt and verdict `proceed`,
the hook continues with the whitespace-trimmed original prompt (hence
with the original itself whenever it carries no surrounding
whitespace). -/
theorem C3_proceed_passes_through (event : HookEvent) (config : HookConfig)
    (guard : String → GuardDict) (heal : String → String → HealDict)
    (h1 : pyStrip (event.prompt.getD "") ≠ "")
    (h2 : (guard (pyStrip (event.prompt.getD ""))).verdict.getD "proceed"
        = "proceed") :
    (process_hook event config guard heal).1 =
      { cont := true
        prompt := some (pyStrip (event.prompt.getD ""))
        userMessage := none } := by
  unfold process_hook
  simp [h1, h2]

/-- C3 witness: a prompt with no surrounding whitespace and a proceed
verdict passes through unmodified. -/
theorem C3_proceed_passes_through_witness :
    (process_hook ⟨some "fix the login bug"⟩ ⟨true, true, 30⟩
        (guardReturning "proceed")
        (healReturning ⟨some "x", some [], none⟩)).1 =
      { cont := true, prompt := some "fix the login bug", userMessage := none } := by
  have h := C3_proceed_passes_through ⟨some "fix the login bug"⟩ ⟨true, true, 30⟩
    (guardReturning "proceed") (healReturning ⟨some "x", some [], none⟩)
    (by decide) (by decide)
  rw [h]
  decide

/-- C4 counterexample: the claim says `continue=true` implies the prompt
field is present in every HookResponse, but the fail-open envelope in
`main` emits `continue=true` with no prompt field on a hard timeout. -/
theorem C4_counterexample :
    (main_output .timeout).cont = true ∧ (main_output .timeout).prompt = none := by
  decide

/-- C4 (amended): every `process_hook` invocation produces exactly one
response (it is a total function); `continue=false` holds exactly when
the prompt field is absent; a present prompt is empty only when the heal
oracle itself returned an empty healed prompt; and the envelope's
timeout/error fallback emits `continue=true` with no prompt field. -/
theorem C4_response_invariant (event : HookEvent) (config : HookConfig)
    (guard : String → GuardDict) (heal : String → String → HealDict)
    (e : String) :
    ((process_hook event config guard heal).1.cont = false ↔
      (process_hook event config guard heal).1.prompt = none)
    ∧ ((process_hook event config guard heal).1.prompt = some "" →
      (heal (pyStrip (event.prompt.getD "")) "auto").healed_prompt = some "")
    ∧ main_output .timeout = { cont := true, prompt := none, userMessage := none }
    ∧ main_output (.error e) = { cont := true, prompt := none, userMessage := none } := by
  refine ⟨?_, ?_, rfl, rfl⟩
  · simp only [process_hook]
    split_ifs <;> simp
  · simp only [process_hook]
    split_ifs with h1 h2 h3 h4 h5
    · simp
    · simp only [Option.some.injEq]
      intro h
      exact absurd h h1
    · simp only [Option.some.injEq]
      intro h
      exact absurd (append_right_eq_empty h) h1
    · simp only [Option.some.injEq]
      intro h
      rcases hh : (heal (pyStrip (event.prompt.getD "")) "auto").healed_prompt with _ | v
      · rw [hh] at h
        simp at h
        exact absurd h h1
      · rw [hh] at h
        simp at h
        rw [h]
    · simp only [Option.some.injEq]
      intro h
      exact absurd (append_right_eq_empty h) h1
    · simp only [Option.some.injEq]
      intro h
      exact absurd h h1

/-- C4 witness: the empty-prompt clause of the invariant fires on a heal
oracle that returns an empty healed prompt. -/
theorem C4_response_invariant_witness :
    ((healReturning ⟨some "", some [], none⟩)
        (pyStrip ((⟨some "fix this"⟩ : HookEvent).prompt.getD "")) "auto").healed_prompt
      = some "" :=
  (C4_response_invariant ⟨some "fix this"⟩ ⟨true, true, 30⟩
      (guardReturning "heal") (healReturning ⟨some "", some [], none⟩)
      "boom").2.1 (by decide)

/-- A concrete `json.loads` oracle that accepts exactly the object
`\x7b"verdict": "proceed"\x7d` and rejects everything else the way the
Python parser reports a non-JSON document. -/
def parseOnlyProceed : String → Except String GuardDict := fun s =>
  if s = "\x7b\"verdict\": \"proceed\"\x7d" then
    .ok ⟨some "proceed", none, none, none, none, none⟩
  else .error "Expecting value: line 1 column 1 (char 0)"

/-- C5 counterexample: the claim says malformed output that is not valid
JSON is filled with the per-field defaults (verdict=intervene,
confidence=0.5), but a response that fails JSON parsing raises inside
`pp_guard` and lands in the fail-open branch: verdict=proceed,
confidence=0.0. -/
theorem C5_counterexample :
    (pp_guard parseOnlyProceed (.ok "The prompt looks fine.")).verdict = some "proceed"
    ∧ (pp_guard parseOnlyProceed (.ok "The prompt looks fine.")).confidence = some 0
    ∧ ¬((pp_guard parseOnlyProceed (.ok "The prompt looks fine.")).verdict
          = some "intervene"
        ∧ (pp_guard parseOnlyProceed (.ok "The prompt looks fine.")).confidence
          = some (1 / 2 : ℚ)) := by
  decide

/-- C5 (amended): malformed judge output never escapes `pp_guard`.
Output that is not valid JSON takes the fail-open error branch
(verdict=proceed, confidence=0.0) rather than the intervene defaults;
valid JSON missing keys is filled per-field with verdict→intervene,
confidence→0.5, issues→[], reason→placeholder; and the fenced literal
is stripped of its code fences and (parsed by any JSON oracle) yields
verdict=proceed, confidence=0.5, issues=[]. -/
theorem C5_malformed_output_defaults (parse : String → Except String GuardDict)
    (content e : String) (result : GuardDict) :
    (parse (extract_json_from_response content) = .error e →
      pp_guard parse (.ok content) =
        { verdict := some "proceed"
          reason := some ("Error during evaluation: " ++ e)
          confidence := some 0
          issues := some ["evaluation_error"]
          suggestions := none
          error := some e })
    ∧ (parse (extract_json_from_response content) = .ok result →
      pp_guard parse (.ok content) =
        { verdict := some (result.verdict.getD "intervene")
          reason := some (result.reason.getD "No reason provided")
          confidence := some (result.confidence.getD (1 / 2))
          issues := some (result.issues.getD [])
          suggestions := result.suggestions
          error := result.error })
    ∧ extract_json_from_response "```json\n\x7b\"verdict\": \"proceed\"\x7d\n```"
        = "\x7b\"verdict\": \"proceed\"\x7d"
    ∧ (parse "\x7b\"verdict\": \"proceed\"\x7d" =
          .ok ⟨some "proceed", none, none, none, none, none⟩ →
      pp_guard parse (.ok "```json\n\x7b\"verdict\": \"proceed\"\x7d\n```") =
        ⟨some "proceed", some "No reason provided", some (1 / 2), some [],
         none, none⟩) := by
  have hx : extract_json_from_response "```json\n\x7b\"verdict\": \"proceed\"\x7d\n```"
      = "\x7b\"verdict\": \"proceed\"\x7d" := by decide
  refine ⟨?_, ?_, hx, ?_⟩
  · intro h
    simp [pp_guard, h, pp_guard_error]
  · intro h
    simp [pp_guard, h]
  · intro h
    simp [pp_guard, hx, h]

/-- C5 witness: the fenced proceed literal, under the concrete parser,
yields verdict=proceed with confidence and issues defaulted. -/
theorem C5_malformed_output_defaults_witness :
    pp_guard parseOnlyProceed (.ok "```json\n\x7b\"verdict\": \"proceed\"\x7d\n```") =
      ⟨some "proceed", some "No reason provided", some (1 / 2), some [],
       none, none⟩ :=
  (C5_malformed_output_defaults parseOnlyProceed "" ""
      ⟨none, none, none, none, none, none⟩).2.2.2 (by decide)

/-- C6: every failure of the heal path — a raised LLM call, a response
that fails JSON parsing, or an exception around the `call_mcp_heal` call
site — returns the original, unmodified prompt with an empty change list
and the error recorded. -/
theorem C6_heal_failure_preserves_prompt (parse : String → Except String HealDict)
    (config : McpConfig) (prompt mode e content : String) :
    pp_heal parse config prompt mode (fun _ => .fail e) =
      { healed_prompt := some prompt, changes_made := some [], error := some e }
    ∧ (parse (extract_json_from_response content) = .error e →
      pp_heal parse config prompt mode (fun _ => .ok content) =
        { healed_prompt := some prompt, changes_made := some [], error := some e })
    ∧ call_mcp_heal (.error e) prompt =
      { healed_prompt := some prompt, changes_made := some [], error := some e } := by
  refine ⟨rfl, ?_, rfl⟩
  intro h
  simp [pp_heal, h, pp_heal_error]

/-- C6 witness: a heal response that is not valid JSON returns the
original prompt untouched. -/
theorem C6_heal_failure_preserves_prompt_witness :
    pp_heal (fun _ => .error "Expecting value") ⟨true, true⟩ "fix this mess"
        "auto" (fun _ => .ok "no json here") =
      { healed_prompt := some "fix this mess", changes_made := some []
        error := some "Expecting value" } :=
  (C6_heal_failure_preserves_prompt (fun _ => .error "Expecting value")
      ⟨true, true⟩ "fix this mess" "auto" "Expecting value" "no json here").2.1
    (by simp)

/-- C7: in mode `auto`, `pp_heal` dispatches the anger-translation
template exactly when the `anger_translator` flag is on and the
negative-tone heuristic fires, and the clarity template otherwise; the
provider oracle is consulted only at the selected template. -/
theorem C7_auto_mode_routing (config : McpConfig) (prompt : String)
    (parse : String → Except String HealDict)
    (c₁ c₂ : HealSystem → LLMOutcome) :
    (pp_heal_system "auto" config prompt = .PP_HEAL_ANGER_SYSTEM ↔
      (config.anger_translator = true ∧ _has_negative_tone prompt = true))
    ∧ (pp_heal_system "auto" config prompt = .PP_HEAL_CLARITY_SYSTEM ↔
      ¬(config.anger_translator = true ∧ _has_negative_tone prompt = true))
    ∧ (c₁ (pp_heal_system "auto" config prompt)
          = c₂ (pp_heal_system "auto" config prompt) →
      pp_heal parse config prompt "auto" c₁ = pp_heal parse config prompt "auto" c₂) := by
  refine ⟨?_, ?_, ?_⟩
  · unfold pp_heal_system
    rw [if_neg (by decide), if_neg (by decide), if_pos rfl]
    cases h1 : config.anger_translator <;> cases h2 : _has_negative_tone prompt <;>
      simp [h1, h2]
  · unfold pp_heal_system
    rw [if_neg (by decide), if_neg (by decide), if_pos rfl]
    cases h1 : config.anger_translator <;> cases h2 : _has_negative_tone prompt <;>
      simp [h1, h2]
  · intro h
    simp only [pp_heal]
    rw [h]

/-- C7 witness: with the flag on and a hostile word in the prompt, auto
mode picks the anger template, and `pp_heal` cannot tell apart two
provider oracles that agree on that template. -/
theorem C7_auto_mode_routing_witness :
    pp_heal_system "auto" ⟨true, true⟩ "this code is garbage" = .PP_HEAL_ANGER_SYSTEM
    ∧ pp_heal (fun _ => .error "x") ⟨true, true⟩ "this code is garbage" "auto"
          (fun _ => .fail "down")
        = pp_heal (fun _ => .error "x") ⟨true, true⟩ "this code is garbage" "auto"
          (fun s => if s = .PP_HEAL_ANGER_SYSTEM then .fail "down" else .fail "up") :=
  ⟨(C7_auto_mode_routing ⟨true, true⟩ "this code is garbage" (fun _ => .error "x")
      (fun _ => .fail "down")
      (fun s => if s = .PP_HEAL_ANGER_SYSTEM then .fail "down" else .fail "up")).1.mpr
    (by decide),
   (C7_auto_mode_routing ⟨true, true⟩ "this code is garbage" (fun _ => .error "x")
      (fun _ => .fail "down")
      (fun s => if s = .PP_HEAL_ANGER_SYSTEM then .fail "down" else .fail "up")).2.2
    (by decide)⟩

/-- C8: on verdict `heal` with `auto_cast_heal=false`, no heal call is
made (the call trace holds only the guard call) and the response has the
same shape as the intervene feedback policy: `continue=true`, feedback
prepended to the prompt, no user message. -/
theorem C8_heal_disabled_skips_heal_call (event : HookEvent) (config : HookConfig)
    (guard : String → GuardDict) (heal : String → String → HealDict)
    (h1 : pyStrip (event.prompt.getD "") ≠ "")
    (h2 : (guard (pyStrip (event.prompt.getD ""))).verdict.getD "proceed" = "heal")
    (h3 : config.auto_cast_heal = false) :
    (process_hook event config guard heal).2 =
      [ExtCall.guard (pyStrip (event.prompt.getD ""))]
    ∧ (process_hook event config guard heal).1 =
      { cont := true
        prompt := some (heal_feedback
            ((guard (pyStrip (event.prompt.getD ""))).reason.getD "No reason provided")
            ((guard (pyStrip (event.prompt.getD ""))).suggestions.getD "")
          ++ pyStrip (event.prompt.getD ""))
        userMessage := none } := by
  unfold process_hook
  simp [h1, h2, h3]

/-- C8 witness: a heal verdict with auto-heal disabled produces exactly
one external call — the guard call. -/
theorem C8_heal_disabled_skips_heal_call_witness :
    (process_hook ⟨some "make this better"⟩ ⟨false, true, 30⟩
        (guardReturning "heal") (healReturning ⟨some "x", some [], none⟩)).2 =
      [ExtCall.guard "make this better"] :=
  (C8_heal_disabled_skips_heal_call ⟨some "make this better"⟩ ⟨false, true, 30⟩
      (guardReturning "heal") (healReturning ⟨some "x", some [], none⟩)
      (by decide) (by decide) (by decide)).1

/-- C9 counterexample: the claim says an unknown verdict passes the
original prompt through, but the hook echoes the whitespace-trimmed
prompt: on `" hi "` with verdict `"banana"` it continues with `"hi"`. -/
theorem C9_counterexample :
    (process_hook ⟨some " hi "⟩ ⟨true, true, 30⟩ (guardReturning "banana")
        (healReturning ⟨some "x", some [], none⟩)).1.cont = true
    ∧ (process_hook ⟨some " hi "⟩ ⟨true, true, 30⟩ (guardReturning "banana")
        (healReturning ⟨some "x", some [], none⟩)).1.prompt = some "hi"
    ∧ (process_hook ⟨some " hi "⟩ ⟨true, true, 30⟩ (guardReturning "banana")
        (healReturning ⟨some "x", some [], none⟩)).1.prompt ≠ some " hi " := by
  decide

/-- C9 (amended): any verdict string other than proceed, intervene and
heal fails open: `continue=true` with the whitespace-trimmed original
prompt (the original itself when it has no surrounding whitespace), and
only the guard call was made. -/
theorem C9_unknown_verdict_fails_open (event : HookEvent) (config : HookConfig)
    (guard : String → GuardDict) (heal : String → String → HealDict)
    (h1 : pyStrip (event.prompt.getD "") ≠ "")
    (h2 : (guard (pyStrip (event.prompt.getD ""))).verdict.getD "proceed" ≠ "proceed")
    (h3 : (guard (pyStrip (event.prompt.getD ""))).verdict.getD "proceed" ≠ "intervene")
    (h4 : (guard (pyStrip (event.prompt.getD ""))).verdict.getD "proceed" ≠ "heal") :
    (process_hook event config guard heal).1 =
      { cont := true
        prompt := some (pyStrip (event.prompt.getD ""))
        userMessage := none }
    ∧ (process_hook event config guard heal).2 =
      [ExtCall.guard (pyStrip (event.prompt.getD ""))] := by
  unfold process_hook
  simp [h1, h2, h3, h4]

/-- C9 witness: an unanticipated verdict string on a plain prompt fails
open with the prompt unchanged. -/
theorem C9_unknown_verdict_fails_open_witness :
    (process_hook ⟨some "hello world"⟩ ⟨true, true, 30⟩
        (guardReturning "banana") (healReturning ⟨some "x", some [], none⟩)).1 =
      { cont := true, prompt := some "hello world", userMessage := none } :=
  (C9_unknown_verdict_fails_open ⟨some "hello world"⟩ ⟨true, true, 30⟩
      (guardReturning "banana") (healReturning ⟨some "x", some [], none⟩)
      (by decide) (by decide) (by decide) (by decide)).1

/-- C10: a mode string that is none of clarity, anger and auto falls
back to the clarity template, and `pp_heal` still returns a well-formed
result with `healed_prompt` and `changes_made` populated. -/
theorem C10_unknown_mode_defaults_to_clarity (config : McpConfig)
    (prompt mode : String) (parse : String → Except String HealDict)
    (complete : HealSystem → LLMOutcome)
    (h1 : mode ≠ "clarity") (h2 : mode ≠ "anger") (h3 : mode ≠ "auto") :
    pp_heal_system mode config prompt = .PP_HEAL_CLARITY_SYSTEM
    ∧ (pp_heal parse config prompt mode complete).healed_prompt.isSome = true
    ∧ (pp_heal parse config prompt mode complete).changes_made.isSome = true := by
  refine ⟨?_, ?_, ?_⟩
  · unfold pp_heal_system
    rw [if_neg h2, if_neg h1, if_neg h3]
  all_goals
    simp only [pp_heal]
    rcases hc : complete (pp_heal_system mode config prompt) with content | err
    · rcases hp : parse (extract_json_from_response content) with e2 | result <;>
        simp [hc, hp, pp_heal_error]
    · simp [hc, pp_heal_error]

/-- C10 witness: mode `"bogus"` dispatches the clarity template and the
result fields are present even when the provider call fails. -/
theorem C10_unknown_mode_defaults_to_clarity_witness :
    pp_heal_system "bogus" ⟨true, true⟩ "hello" = .PP_HEAL_CLARITY_SYSTEM
    ∧ (pp_heal (fun _ => .error "x") ⟨true, true⟩ "hello" "bogus"
        (fun _ => .fail "down")).healed_prompt.isSome = true
    ∧ (pp_heal (fun _ => .error "x") ⟨true, true⟩ "hello" "bogus"
        (fun _ => .fail "down")).changes_made.isSome = true :=
  C10_unknown_mode_defaults_to_clarity ⟨true, true⟩ "hello" "bogus"
    (fun _ => .error "x") (fun _ => .fail "down")
    (by decide) (by decide) (by decide)
